import Mathlib

/-!
Verification of `convert.py` from the wunderlist-to-org repository.

The Python source is shallowly embedded: pure functions become Lean
functions, the mutable `OrgWriter` object becomes explicit state passing
on an `OrgWriter` structure, and Python exceptions become an explicit
`Option String` error component (the string is the exception message).
Python string operations are modelled on their ASCII fragment, which
covers every string the program and the spec exercise.
-/

/-- ASCII model of Python `str.upper` (used on tags, property names,
todo states and drawer names, all ASCII in this program). -/
def pyUpper (s : String) : String :=
  String.mk (s.data.map Char.toUpper)

/-- ASCII fragment of Python regex `\s` (whitespace class). -/
def isPySpace (c : Char) : Bool :=
  c = ' ' || c = '\t' || c = '\n' || c = '\r' ||
    c = Char.ofNat 11 || c = Char.ofNat 12

def isDigitChar (c : Char) : Bool :=
  '0' ≤ c && c ≤ '9'

def digitVal (c : Char) : Nat :=
  c.toNat - '0'.toNat

/-! ## Date parsing: model of `datetime.datetime.strptime` on the three
fixed layouts used by `parse_wunderlist_date` (convert.py lines 168-187).

CPython's `_strptime` compiles each format directive to a regex
(IGNORECASE, anchored at the start, and the whole input must be
consumed).  The directives used here are
`%Y` = 4 digits, `%m` = `1[0-2]|0[1-9]|[1-9]`, `%d` = `3[01]|[1-2]\d|0[1-9]|[1-9]`,
`%H` = `2[0-3]|[0-1]\d|\d`, `%M` = `[0-5]\d|\d`, `%S` = `6[0-1]|[0-5]\d|\d`,
`%f` = 1 to 6 digits (right-padded with zeros to microseconds),
literal letters match case-insensitively.  The parsed fields are then
validated by the `datetime` constructor (year at least 1, day within the
month, second at most 59). -/

structure PyDateTime where
  year : Nat
  month : Nat
  day : Nat
  hour : Nat
  minute : Nat
  second : Nat
  microsecond : Nat
deriving DecidableEq, Repr

def isLeapYear (y : Nat) : Bool :=
  y % 4 = 0 && (y % 100 ≠ 0 || y % 400 = 0)

def daysInMonth (y m : Nat) : Nat :=
  if m = 2 then (if isLeapYear y then 29 else 28)
  else if m = 4 || m = 6 || m = 9 || m = 11 then 30
  else 31

/-- The validation performed by the `datetime.datetime` constructor on the
fields produced by `strptime` (a failure is a `ValueError`, which
`parse_wunderlist_date` catches). -/
def mkPyDateTime (y mo d h mi s us : Nat) : Option PyDateTime :=
  if 1 ≤ y && y ≤ 9999 && 1 ≤ mo && mo ≤ 12 && 1 ≤ d && d ≤ daysInMonth y mo
      && h ≤ 23 && mi ≤ 59 && s ≤ 59 && us ≤ 999999 then
    some ⟨y, mo, d, h, mi, s, us⟩
  else
    none

/-- A numeric strptime field that matches either two digits (accepted by
`valid2`) or one digit (accepted by `valid1`); the alternation never needs
further backtracking because every such field is followed by a non-digit
literal or the end of the input. -/
def parseNumField (valid2 valid1 : Nat → Bool) :
    List Char → Option (Nat × List Char)
  | c1 :: c2 :: rest =>
    if isDigitChar c1 && isDigitChar c2 then
      let v := digitVal c1 * 10 + digitVal c2
      if valid2 v then some (v, rest) else none
    else if isDigitChar c1 then
      let v := digitVal c1
      if valid1 v then some (v, c2 :: rest) else none
    else none
  | [c1] =>
    if isDigitChar c1 && valid1 (digitVal c1) then some (digitVal c1, [])
    else none
  | [] => none

/-- `%Y`: exactly four digits. -/
def parseYear4 : List Char → Option (Nat × List Char)
  | a :: b :: c :: d :: rest =>
    if isDigitChar a && isDigitChar b && isDigitChar c && isDigitChar d then
      some (digitVal a * 1000 + digitVal b * 100 + digitVal c * 10 + digitVal d,
        rest)
    else none
  | _ => none

def parseMonth (l : List Char) : Option (Nat × List Char) :=
  parseNumField (fun v => 1 ≤ v && v ≤ 12) (fun v => 1 ≤ v && v ≤ 9) l

def parseDay (l : List Char) : Option (Nat × List Char) :=
  parseNumField (fun v => 1 ≤ v && v ≤ 31) (fun v => 1 ≤ v && v ≤ 9) l

def parseHour (l : List Char) : Option (Nat × List Char) :=
  parseNumField (fun v => v ≤ 23) (fun _ => true) l

def parseMinute (l : List Char) : Option (Nat × List Char) :=
  parseNumField (fun v => v ≤ 59) (fun _ => true) l

def parseSecond (l : List Char) : Option (Nat × List Char) :=
  parseNumField (fun v => v ≤ 61) (fun _ => true) l

/-- A literal character of the format, matched case-insensitively
(CPython compiles the strptime regex with IGNORECASE). -/
def expectLit (c : Char) : List Char → Option (List Char)
  | x :: rest => if x.toLower = c.toLower then some rest else none
  | [] => none

/-- `%f`: one to six digits, right-padded with zeros to a microsecond
count; a run of more than six digits fails (nothing after the run can
absorb the surplus digits). -/
def parseFrac (l : List Char) : Option (Nat × List Char) :=
  let ds := l.takeWhile isDigitChar
  if 1 ≤ ds.length && ds.length ≤ 6 then
    let v := ds.foldl (fun a c => a * 10 + digitVal c) 0
    some (v * 10 ^ (6 - ds.length), l.drop ds.length)
  else none

/-- The shared `%Y-%m-%dT%H:%M:%S` prefix of the three layouts. -/
def parseDatePrefix (l : List Char) :
    Option (Nat × Nat × Nat × Nat × Nat × Nat × List Char) := do
  let (y, l) ← parseYear4 l
  let l ← expectLit '-' l
  let (mo, l) ← parseMonth l
  let l ← expectLit '-' l
  let (d, l) ← parseDay l
  let l ← expectLit 'T' l
  let (h, l) ← parseHour l
  let l ← expectLit ':' l
  let (mi, l) ← parseMinute l
  let l ← expectLit ':' l
  let (s, l) ← parseSecond l
  pure (y, mo, d, h, mi, s, l)

/-- `datetime.strptime(date_str, "%Y-%m-%dT%H:%M:%S.%fZ")`,
returning `none` for a `ValueError`. -/
def strptimeFracUTC (s : String) : Option PyDateTime := do
  let (y, mo, d, h, mi, sec, l) ← parseDatePrefix s.data
  let l ← expectLit '.' l
  let (us, l) ← parseFrac l
  let l ← expectLit 'Z' l
  if l = [] then mkPyDateTime y mo d h mi sec us else none

/-- `datetime.strptime(date_str, "%Y-%m-%dT%H:%M:%SZ")`,
returning `none` for a `ValueError`. -/
def strptimeWholeUTC (s : String) : Option PyDateTime := do
  let (y, mo, d, h, mi, sec, l) ← parseDatePrefix s.data
  let l ← expectLit 'Z' l
  if l = [] then mkPyDateTime y mo d h mi sec 0 else none

/-- `datetime.strptime(date_str, "%Y-%m-%dT%H:%M:%S")`,
returning `none` for a `ValueError`. -/
def strptimeBare (s : String) : Option PyDateTime := do
  let (y, mo, d, h, mi, sec, l) ← parseDatePrefix s.data
  if l = [] then mkPyDateTime y mo d h mi sec 0 else none

/-- `parse_wunderlist_date` (convert.py lines 168-187): a falsy (absent or
empty) string yields `None`; otherwise the three layouts are tried in
order and the first successful parse wins; if all three raise
`ValueError` the function returns `None`. -/
def parse_wunderlist_date (date_str : String) : Option PyDateTime :=
  if date_str = "" then none
  else
    match strptimeFracUTC date_str with
    | some d => some d
    | none =>
      match strptimeWholeUTC date_str with
      | some d => some d
      | none =>
        match strptimeBare date_str with
        | some d => some d
        | none => none

/-! ## Date formatting: `_format_org_date` (convert.py lines 12-13),
i.e. `date.strftime("%Y-%m-%d %a %H:%M")`. -/

def pad2 (n : Nat) : String :=
  if n < 10 then "0" ++ toString n else toString n

def pad4 (n : Nat) : String :=
  if n < 10 then "000" ++ toString n
  else if n < 100 then "00" ++ toString n
  else if n < 1000 then "0" ++ toString n
  else toString n

/-- Day of the week (0 = Sunday) by Sakamoto's method, matching the
`tm_wday` that `strftime %a` renders. -/
def dayOfWeek (y m d : Nat) : Nat :=
  let t := [0, 3, 2, 5, 0, 3, 5, 1, 4, 6, 2, 4]
  let y := if m < 3 then y - 1 else y
  (y + y / 4 - y / 100 + y / 400 + t.getD (m - 1) 0 + d) % 7

def weekdayAbbrev (n : Nat) : String :=
  ["Sun", "Mon", "Tue", "Wed", "Thu", "Fri", "Sat"].getD n "Sun"

/-- `_format_org_date(date)` = `date.strftime("%Y-%m-%d %a %H:%M")`. -/
def format_org_date (d : PyDateTime) : String :=
  pad4 d.year ++ "-" ++ pad2 d.month ++ "-" ++ pad2 d.day ++ " " ++
    weekdayAbbrev (dayOfWeek d.year d.month d.day) ++ " " ++
    pad2 d.hour ++ ":" ++ pad2 d.minute

/-! ## Tag extraction: `convert_wunderlist_title` (convert.py lines 194-199).

The regex `#(.*?(?:\s+|$))` (MULTILINE) matches a `#`, then lazily as few
characters as possible until the first whitespace character (the greedy
`\s+` then takes the whole whitespace run) or, when no whitespace
follows, until the end of the string.  `findall` collects the capture
group (everything after the `#`); each tag is the group with its final
character stripped (`tag[:-1]`).  `sub(r"\1", title)` replaces each whole
match by its capture group, i.e. deletes exactly the `#` characters that
start a match.  Scanning is left to right and matches do not overlap. -/

/-- The capture group of one match: the run of non-whitespace characters
followed by the (possibly empty) run of whitespace characters. -/
def tagGroup (rest : List Char) : List Char :=
  let ns := rest.takeWhile (fun c => !(isPySpace c))
  ns ++ (rest.drop ns.length).takeWhile isPySpace

/-- One left-to-right scan producing the cleaned title (the `sub`) and the
capture groups (the `findall`) simultaneously.  Each step consumes at
least one character, so a fuel of the input length suffices; the fuel
argument only makes the recursion structural. -/
def scanTagTitleAux : Nat → List Char → List Char × List (List Char)
  | _, [] => ([], [])
  | 0, l => (l, [])
  | fuel + 1, c :: rest =>
    if c = '#' then
      let g := tagGroup rest
      let r := scanTagTitleAux fuel (rest.drop g.length)
      (g ++ r.1, g :: r.2)
    else
      let r := scanTagTitleAux fuel rest
      (c :: r.1, r.2)

def scanTagTitle (l : List Char) : List Char × List (List Char) :=
  scanTagTitleAux l.length l

/-- `convert_wunderlist_title(title)` (convert.py lines 194-199): returns
the cleaned title and the list of tags (each capture group stripped of
its final character by `tag[:-1]`). -/
def convert_wunderlist_title (title : String) : String × List String :=
  let r := scanTagTitle title.data
  (String.mk r.1, r.2.map (fun g => String.mk g.dropLast))


/-! ## The Writer: class `OrgWriter` (convert.py lines 23-135).

The mutable object becomes explicit state passing.  A context-manager
body (`with writer.new_level(): ...` / `with writer.drawer(...): ...`)
becomes a function `OrgWriter → OrgWriter × Option String`; the `Option
String` is the exception possibly raised by the body (the message of the
`RuntimeError`).  `@contextmanager` generators without `try/finally` do
not run the code after `yield` when the body raises, which the
error branches below mirror. -/

/-- The value of the discarded expression `star_re.sub("+", text)` in
`sanitize_text`, for `star_re = re.compile(r"^\*+")`: without MULTILINE
the anchor only matches at the start, so the leading run of stars (if
any) is replaced by a single `+`. -/
def leadingStarSub (text : String) : String :=
  if text.data.head? = some '*' then
    "+" ++ String.mk (text.data.dropWhile (fun c => c = '*'))
  else text

/-- `sanitize_text` (convert.py lines 16-20): the source computes
`star_re.sub("+", text)` but never uses the result (`re.sub` is pure and
the return value is not assigned), so the function returns `text`
unchanged. -/
def sanitize_text (text : String) : String :=
  let _ := leadingStarSub text
  text

structure OrgWriter where
  level : Int
  orgString : String
deriving DecidableEq, Repr

/-- A writer state paired with the exception raised so far, if any. -/
abbrev WriterResult := OrgWriter × Option String

/-- `OrgWriter.emit(message="", newline=True)`. -/
def OrgWriter.emit (w : OrgWriter) (message : String) (newline : Bool) :
    OrgWriter :=
  let message := if newline then message ++ "\n" else message
  { w with orgString := w.orgString ++ message }

/-- `OrgWriter.set_level(level)`: raises
`RuntimeError("Heading levels have to be positive.")` when `level < 0`. -/
def OrgWriter.set_level (w : OrgWriter) (level : Int) :
    Except String OrgWriter :=
  if level < 0 then Except.error "Heading levels have to be positive."
  else Except.ok { w with level := level }

/-- `OrgWriter.new_level(level=None)` (convert.py lines 41-50).  Python
tests `if not level:`, so both `None` and `0` (falsy) select the default
`self._level + 1`.  The generator has no `try/finally`: when the body
raises, the trailing `self.set_level(old_level)` is skipped. -/
def OrgWriter.new_level (w : OrgWriter) (level : Option Int)
    (body : OrgWriter → WriterResult) : WriterResult :=
  let lvl := match level with
    | none => w.level + 1
    | some l => if l = 0 then w.level + 1 else l
  let old_level := w.level
  match w.set_level lvl with
  | Except.error e => (w, some e)
  | Except.ok w1 =>
    match body w1 with
    | (w2, some e) => (w2, some e)
    | (w2, none) =>
      match w2.set_level old_level with
      | Except.error e => (w2, some e)
      | Except.ok w3 => (w3, none)

/-- `OrgWriter.drawer(name)` (convert.py lines 52-56).  The generator has
no `try/finally`: when the body raises, `":END:"` is not emitted. -/
def OrgWriter.drawer (w : OrgWriter) (name : String)
    (body : OrgWriter → WriterResult) : WriterResult :=
  let w1 := w.emit (":" ++ pyUpper name ++ ":") true
  match body w1 with
  | (w2, some e) => (w2, some e)
  | (w2, none) => (w2.emit ":END:" true, none)

/-- `OrgWriter.emit_node_title(title, todo_state=None, tags=None)`
(convert.py lines 81-95).  `range(self._level + 1)` of a negative bound
is empty, hence the `toNat`.  The `tags[i] = tag.upper()` in-place
mutation becomes a `map`. -/
def OrgWriter.emit_node_title (w : OrgWriter) (title : String)
    (todo_state : String) (tags : List String) : OrgWriter :=
  let out_title := String.mk (List.replicate (w.level + 1).toNat '*')
  let out_title :=
    if todo_state ≠ "" then out_title ++ " " ++ pyUpper todo_state
    else out_title
  let out_title := out_title ++ " " ++ title
  let out_title :=
    if tags ≠ [] then
      out_title ++ " :" ++ String.intercalate ":" (tags.map pyUpper) ++ ":"
    else out_title
  w.emit out_title true

/-- `OrgWriter.emit_timestamp(date, timestamp_type=None, active=True,
newline=True)` (convert.py lines 97-106): a falsy (`None`) date is a
no-op returning the writer unchanged. -/
def OrgWriter.emit_timestamp (w : OrgWriter) (date : Option PyDateTime)
    (timestamp_type : String) (active : Bool) (newline : Bool) : OrgWriter :=
  match date with
  | none => w
  | some d =>
    let stamp := if timestamp_type ≠ "" then pyUpper timestamp_type ++ ": "
      else ""
    let formated_date := format_org_date d
    let stamp := stamp ++
      (if active then "<" ++ formated_date ++ ">"
       else "[" ++ formated_date ++ "]")
    w.emit stamp newline

/-- `OrgWriter.emit_node(title, content=None, tags=None, timestamp=None,
timestamp_type=None, todo_state=None)` (convert.py lines 108-123). -/
def OrgWriter.emit_node (w : OrgWriter) (title content : String)
    (tags : List String) (timestamp : Option PyDateTime)
    (timestamp_type todo_state : String) : OrgWriter :=
  let w := w.emit_node_title title todo_state tags
  let w := w.emit_timestamp timestamp timestamp_type true true
  if content ≠ "" then w.emit content true else w

/-- `OrgWriter.emit_content(content)` (convert.py lines 125-127). -/
def OrgWriter.emit_content (w : OrgWriter) (content : String) : OrgWriter :=
  (w.emit (sanitize_text content) true).emit "" true

/-- `OrgWriter.emit_list_item(text)` (convert.py lines 129-130). -/
def OrgWriter.emit_list_item (w : OrgWriter) (text : String) : OrgWriter :=
  w.emit (" - " ++ text) true

/-- `OrgWriter.emit_property(name, value=None)` (convert.py lines
132-135): the opening `":NAME: "` is emitted without a newline; a falsy
(`None` or empty) value leaves the line open. -/
def OrgWriter.emit_property (w : OrgWriter) (name value : String) :
    OrgWriter :=
  let w := w.emit (":" ++ pyUpper name ++ ": ") false
  if value ≠ "" then w.emit value true else w

/-! ## The data model (the fields of the Wunderlist export that
`convert.py` reads).  Optional JSON fields that Python tests for
truthiness are modelled as `Option` (for objects) or as a `String` whose
empty value stands for `null`/missing (for date strings, both falsy). -/

structure Person where
  name : String
  email : String
deriving DecidableEq, Repr

structure Note where
  content : String
deriving DecidableEq, Repr

structure WComment where
  author : Person
  text : String
deriving DecidableEq, Repr

structure WFile where
  fileName : String
  filePath : String
deriving DecidableEq, Repr

structure Reminder where
  remindAt : String
deriving DecidableEq, Repr

structure WTask where
  title : String
  starred : Bool
  completed : Bool
  dueDate : String
  createdBy : Person
  createdAt : String
  completedBy : Option Person
  completedAt : String
  reminders : List Reminder
  assignee : Option Person
  notes : List Note
  comments : List WComment
  files : List WFile
deriving DecidableEq, Repr

structure Folder where
  title : String
deriving DecidableEq, Repr

structure TodoList where
  title : String
  folder : Option Folder
  tasks : List WTask
deriving DecidableEq, Repr

/-! ## The Mapper (convert.py lines 138-281). -/

/-- `convert_wunderlist_person(person)` (convert.py lines 190-191). -/
def convert_wunderlist_person (person : Person) : String :=
  "[[mailto:" ++ person.email ++ "][" ++ person.name ++ "]]"

/-- `convert_wunderlist_comment(writer, comment)` (convert.py lines
274-277). -/
def convert_wunderlist_comment (writer : OrgWriter) (comment : WComment) :
    OrgWriter :=
  writer.emit_list_item
    (convert_wunderlist_person comment.author ++ ": " ++ comment.text)

/-- `convert_wunderlist_file(writer, w_file)` (convert.py lines 280-281). -/
def convert_wunderlist_file (writer : OrgWriter) (w_file : WFile) :
    OrgWriter :=
  writer.emit_list_item
    ("[[file:" ++ w_file.filePath ++ "][" ++ w_file.fileName ++ "]]")

/-- One iteration of the reminder loop in `convert_wunderlist_task`
(convert.py lines 236-245): the `first` flag is the `Bool` component;
every iteration after the first emits a separating space, and the
timestamp is emitted with the default `active=True` and `newline=False`. -/
def reminderStep (acc : Bool × OrgWriter) (reminder : Reminder) :
    Bool × OrgWriter :=
  let w1 := if acc.1 then acc.2 else acc.2.emit " " false
  (false,
    w1.emit_timestamp (parse_wunderlist_date reminder.remindAt) "" true false)

/-- The body of the `with writer.drawer("properties"):` block in
`convert_wunderlist_task` (convert.py lines 214-252).  The reminder loop
threads the `first` flag through a fold of `reminderStep`. -/
def emit_task_properties (task : WTask) (writer : OrgWriter) : OrgWriter :=
  let writer := writer.emit_property "created-by"
    (convert_wunderlist_person task.createdBy)
  let writer :=
    if task.createdAt ≠ "" then
      (writer.emit_property "created" "").emit_timestamp
        (parse_wunderlist_date task.createdAt) "" false true
    else writer
  let writer :=
    match task.completedBy with
    | some p => writer.emit_property "COMPLETED-BY" (convert_wunderlist_person p)
    | none => writer
  let writer :=
    if task.completedAt ≠ "" then
      (writer.emit_property "completed" "").emit_timestamp
        (parse_wunderlist_date task.completedAt) "" false true
    else writer
  let writer :=
    if task.reminders ≠ [] then
      let writer := writer.emit_property "reminders" ""
      let writer :=
        (task.reminders.foldl reminderStep ((true, writer) : Bool × OrgWriter)).2
      writer.emit "" true
    else writer
  match task.assignee with
  | some p => writer.emit_property "assignee" (convert_wunderlist_person p)
  | none => writer

/-- The shared shape of the Comments and Files sections of
`convert_wunderlist_task` (convert.py lines 257-271): a
`with writer.new_level():` block running `f` (the sub-heading plus the
item loop), followed by `writer.emit()` — the trailing blank line, which
is skipped when the `with` block raises. -/
def emit_sub_section (writer : OrgWriter) (f : OrgWriter → OrgWriter) :
    WriterResult :=
  match writer.new_level none (fun w => (f w, none)) with
  | (w, some e) => (w, some e)
  | (w, none) => (w.emit "" true, none)

/-- What `convert_wunderlist_task` does after the properties drawer: the
note contents (convert.py lines 254-255), the Comments section (lines
257-263) and the Files section (lines 265-271). -/
def convert_task_tail (task : WTask) (writer : OrgWriter) : WriterResult :=
  let writer := task.notes.foldl
    (fun w note => w.emit_content note.content) writer
  let afterComments : WriterResult :=
    if task.comments ≠ [] then
      emit_sub_section writer
        (fun w =>
          task.comments.foldl convert_wunderlist_comment
            (w.emit_node_title "Comments" "" []))
    else (writer, none)
  match afterComments with
  | (writer, some e) => (writer, some e)
  | (writer, none) =>
    if task.files ≠ [] then
      emit_sub_section writer
        (fun w =>
          task.files.foldl convert_wunderlist_file
            (w.emit_node_title "Files" "" []))
    else (writer, none)

/-- Everything `convert_wunderlist_task` does after its opening
`writer.emit_node(...)` call: the properties drawer (lines 214-252),
then `convert_task_tail`. -/
def convert_task_body (task : WTask) (writer : OrgWriter) : WriterResult :=
  match writer.drawer "properties"
      (fun w => (emit_task_properties task w, none)) with
  | (writer, some e) => (writer, some e)
  | (writer, none) => convert_task_tail task writer

/-- `convert_wunderlist_task(writer, task)` (convert.py lines 202-271):
the heading node (title, todo state, deadline, tags), then everything in
`convert_task_body`. -/
def convert_wunderlist_task (writer : OrgWriter) (task : WTask) :
    WriterResult :=
  let te := convert_wunderlist_title task.title
  convert_task_body task
    (writer.emit_node te.1 "" te.2
      (parse_wunderlist_date task.dueDate) "deadline"
      (if task.starred then "next"
       else if task.completed then "done" else "todo"))

/-- The `for task in todo_list["tasks"]:` loop, propagating exceptions. -/
def convert_tasks (writer : OrgWriter) : List WTask → WriterResult
  | [] => (writer, none)
  | task :: rest =>
    match convert_wunderlist_task writer task with
    | (w, some e) => (w, some e)
    | (w, none) => convert_tasks w rest

/-- `convert_wunderlist_list(writer, todo_list)` (convert.py lines
153-165). -/
def convert_wunderlist_list (writer : OrgWriter) (todo_list : TodoList) :
    WriterResult :=
  let te := convert_wunderlist_title todo_list.title
  let tags :=
    match todo_list.folder with
    | some f => te.2 ++ [f.title]
    | none => te.2
  let writer := writer.emit_node_title te.1 "" tags
  writer.new_level none (fun w => convert_tasks w todo_list.tasks)

/-- The `for todo_list in wunder_data:` loop, propagating exceptions. -/
def convert_lists (writer : OrgWriter) : List TodoList → WriterResult
  | [] => (writer, none)
  | l :: rest =>
    match convert_wunderlist_list writer l with
    | (w, some e) => (w, some e)
    | (w, none) => convert_lists w rest

/-- `convert_wunderlist(filename)` (convert.py lines 138-150), modelled
from the point where the JSON file has been read and parsed into the
data model; falsy (empty) root data raises
`RuntimeError("Could not read wunderlist data.")`. -/
def convert_wunderlist (wunder_data : List TodoList) :
    Except String String :=
  if wunder_data = [] then
    Except.error "Could not read wunderlist data."
  else
    match convert_lists (OrgWriter.mk 0 "") wunder_data with
    | (w, none) => Except.ok w.orgString
    | (_, some e) => Except.error e

/-- A concrete task with a single reminder, used to evaluate the
converter on a closed input. -/
def sampleReminderTask : WTask :=
  { title := "Call mom", starred := false, completed := false,
    dueDate := "", createdBy := { name := "Ann", email := "ann@x.io" },
    createdAt := "", completedBy := none, completedAt := "",
    reminders := [{ remindAt := "2020-03-01T10:00:00Z" }],
    assignee := none, notes := [], comments := [], files := [] }

/-! ## Derived text chunks.

The following definitions are not part of the source; they name the text
that each writer operation appends, so that the theorems below can state
how the buffer grows.  Each is read off the corresponding operation. -/

/-- The text appended by `emit_timestamp` (empty for an absent date). -/
def tsChunk (o : Option PyDateTime) (tt : String) (active nl : Bool) :
    String :=
  match o with
  | none => ""
  | some d =>
    let stamp :=
      (if tt ≠ "" then pyUpper tt ++ ": " else "") ++
        (if active then "<" ++ format_org_date d ++ ">"
         else "[" ++ format_org_date d ++ "]")
    if nl then stamp ++ "\n" else stamp

/-- The heading line appended by `emit_node_title` (without the final
newline). -/
def headingLine (level : Int) (title st : String) (tags : List String) :
    String :=
  String.mk (List.replicate (level + 1).toNat '*')
    ++ (if st ≠ "" then " " ++ pyUpper st else "")
    ++ (" " ++ title)
    ++ (if tags ≠ [] then
          " :" ++ String.intercalate ":" (tags.map pyUpper) ++ ":"
        else "")

/-- The text appended by `emit_property` (the line is left open when the
value is falsy). -/
def propertyChunk (n v : String) : String :=
  ":" ++ pyUpper n ++ ": " ++ (if v ≠ "" then v ++ "\n" else "")

def strConcat : List String → String
  | [] => ""
  | s :: rest => s ++ strConcat rest

/-- Joining a list of strings with single spaces, exactly as the
first-flag loop of the reminder emission produces it. -/
def spaceJoin (l : List String) : String :=
  match l with
  | [] => ""
  | s :: rest => s ++ strConcat (rest.map (fun x => " " ++ x))

/-- The text one reminder contributes: an active (angle-bracketed)
timestamp without a newline, or nothing when its date fails to parse. -/
def reminderChunk (r : Reminder) : String :=
  tsChunk (parse_wunderlist_date r.remindAt) "" true false

/-- The text the properties-drawer body appends, read off
`emit_task_properties`. -/
def propsChunk (task : WTask) : String :=
  propertyChunk "created-by" (convert_wunderlist_person task.createdBy)
  ++ (if task.createdAt ≠ "" then
        propertyChunk "created" ""
          ++ tsChunk (parse_wunderlist_date task.createdAt) "" false true
      else "")
  ++ (match task.completedBy with
      | some p => propertyChunk "COMPLETED-BY" (convert_wunderlist_person p)
      | none => "")
  ++ (if task.completedAt ≠ "" then
        propertyChunk "completed" ""
          ++ tsChunk (parse_wunderlist_date task.completedAt) "" false true
      else "")
  ++ (if task.reminders ≠ [] then
        propertyChunk "reminders" ""
          ++ spaceJoin (task.reminders.map reminderChunk) ++ "\n"
      else "")
  ++ (match task.assignee with
      | some p => propertyChunk "assignee" (convert_wunderlist_person p)
      | none => "")

/-- `Emits w w'`: the buffer of `w'` extends the buffer of `w`. -/
def Emits (w w' : OrgWriter) : Prop :=
  ∃ s, w'.orgString = w.orgString ++ s

/-! ## Proof support: how each writer operation transforms the state. -/

theorem emit_level (w : OrgWriter) (m : String) (b : Bool) :
    (w.emit m b).level = w.level := rfl

theorem emit_orgString (w : OrgWriter) (m : String) (b : Bool) :
    (w.emit m b).orgString = w.orgString ++ (if b then m ++ "\n" else m) := by
  unfold OrgWriter.emit
  split <;> rfl

theorem emit_timestamp_level (w : OrgWriter) (o : Option PyDateTime)
    (tt : String) (a nl : Bool) : (w.emit_timestamp o tt a nl).level = w.level := by
  unfold OrgWriter.emit_timestamp
  cases o <;> rfl

theorem emit_timestamp_orgString (w : OrgWriter) (o : Option PyDateTime)
    (tt : String) (a nl : Bool) :
    (w.emit_timestamp o tt a nl).orgString = w.orgString ++ tsChunk o tt a nl := by
  cases o with
  | none => exact (String.append_empty _).symm
  | some d => rfl

theorem emit_node_title_level (w : OrgWriter) (t st : String)
    (tags : List String) : (w.emit_node_title t st tags).level = w.level := rfl

theorem emit_node_title_orgString (w : OrgWriter) (t st : String)
    (tags : List String) :
    (w.emit_node_title t st tags).orgString
      = w.orgString ++ (headingLine w.level t st tags ++ "\n") := by
  unfold OrgWriter.emit_node_title headingLine
  simp only [emit_orgString, if_pos, if_neg]
  split <;> split <;> simp [String.append_assoc]

theorem emit_node_level (w : OrgWriter) (t c : String) (tags : List String)
    (o : Option PyDateTime) (tt st : String) :
    (w.emit_node t c tags o tt st).level = w.level := by
  unfold OrgWriter.emit_node
  split <;> simp [emit_level, emit_timestamp_level, emit_node_title_level]

theorem emit_node_orgString (w : OrgWriter) (t c : String)
    (tags : List String) (o : Option PyDateTime) (tt st : String) :
    (w.emit_node t c tags o tt st).orgString
      = w.orgString ++ (headingLine w.level t st tags ++ "\n")
          ++ tsChunk o tt true true
          ++ (if c ≠ "" then c ++ "\n" else "") := by
  unfold OrgWriter.emit_node
  split <;>
    simp [emit_orgString, emit_timestamp_orgString, emit_node_title_orgString,
      emit_timestamp_level, emit_node_title_level, String.append_assoc,
      String.append_empty]

theorem emit_content_level (w : OrgWriter) (c : String) :
    (w.emit_content c).level = w.level := rfl

theorem emit_content_orgString (w : OrgWriter) (c : String) :
    (w.emit_content c).orgString = w.orgString ++ (c ++ "\n" ++ "\n") := by
  unfold OrgWriter.emit_content sanitize_text
  simp [emit_orgString, String.append_assoc]

theorem emit_list_item_level (w : OrgWriter) (t : String) :
    (w.emit_list_item t).level = w.level := rfl

theorem emit_list_item_orgString (w : OrgWriter) (t : String) :
    (w.emit_list_item t).orgString = w.orgString ++ (" - " ++ t ++ "\n") := by
  unfold OrgWriter.emit_list_item
  simp [emit_orgString, String.append_assoc]

theorem emit_property_level (w : OrgWriter) (n v : String) :
    (w.emit_property n v).level = w.level := by
  unfold OrgWriter.emit_property
  split <;> rfl

theorem emit_property_orgString (w : OrgWriter) (n v : String) :
    (w.emit_property n v).orgString = w.orgString ++ propertyChunk n v := by
  unfold OrgWriter.emit_property propertyChunk
  split <;> simp [emit_orgString, String.append_assoc, String.append_empty]

theorem emits_refl (w : OrgWriter) : Emits w w :=
  ⟨"", (String.append_empty _).symm⟩

theorem emits_trans {a b c : OrgWriter} (h1 : Emits a b) (h2 : Emits b c) :
    Emits a c := by
  obtain ⟨s, hs⟩ := h1
  obtain ⟨t, ht⟩ := h2
  exact ⟨s ++ t, by rw [ht, hs, String.append_assoc]⟩

theorem emits_emit (w : OrgWriter) (m : String) (b : Bool) :
    Emits w (w.emit m b) :=
  ⟨if b then m ++ "\n" else m, emit_orgString w m b⟩

theorem emits_foldl {α : Type} (f : OrgWriter → α → OrgWriter)
    (h : ∀ w a, Emits w (f w a)) :
    ∀ (l : List α) (w : OrgWriter), Emits w (List.foldl f w l)
  | [], w => emits_refl w
  | a :: l, w => by
    rw [List.foldl_cons]
    exact emits_trans (h w a) (emits_foldl f h l (f w a))

theorem foldl_level {α : Type} (f : OrgWriter → α → OrgWriter)
    (h : ∀ w a, (f w a).level = w.level) :
    ∀ (l : List α) (w : OrgWriter), (List.foldl f w l).level = w.level
  | [], _ => rfl
  | a :: l, w => by rw [List.foldl_cons, foldl_level f h l, h]

theorem reminderStep_level (acc : Bool × OrgWriter) (r : Reminder) :
    ((reminderStep acc r).2).level = acc.2.level := by
  unfold reminderStep
  by_cases h : acc.1 <;> simp [h, emit_timestamp_level, emit_level]

theorem reminders_fold_level :
    ∀ (rs : List Reminder) (b : Bool) (w : OrgWriter),
      ((rs.foldl reminderStep (b, w)).2).level = w.level
  | [], _, _ => rfl
  | r :: rs, b, w => by
    rw [List.foldl_cons]
    have h := reminders_fold_level rs false ((reminderStep (b, w) r).2)
    have hstep : reminderStep (b, w) r = (false, (reminderStep (b, w) r).2) := by
      unfold reminderStep
      by_cases hb : b <;> simp [hb]
    rw [hstep] at h ⊢
    rw [h, reminderStep_level]

theorem reminders_fold_false_orgString :
    ∀ (rs : List Reminder) (w : OrgWriter),
      ((rs.foldl reminderStep (false, w)).2).orgString
        = w.orgString ++ strConcat (rs.map (fun r => " " ++ reminderChunk r))
  | [], w => (String.append_empty _).symm
  | r :: rs, w => by
    rw [List.foldl_cons]
    have hstep : reminderStep (false, w) r
        = (false,
            (w.emit " " false).emit_timestamp
              (parse_wunderlist_date r.remindAt) "" true false) := by
      unfold reminderStep
      simp
    rw [hstep, reminders_fold_false_orgString rs, emit_timestamp_orgString,
      emit_orgString]
    simp [strConcat, reminderChunk, String.append_assoc]

theorem reminders_fold_true_orgString (r : Reminder) (rs : List Reminder)
    (w : OrgWriter) :
    (((r :: rs).foldl reminderStep (true, w)).2).orgString
      = w.orgString ++ spaceJoin ((r :: rs).map reminderChunk) := by
  rw [List.foldl_cons]
  have hstep : reminderStep (true, w) r
      = (false,
          w.emit_timestamp (parse_wunderlist_date r.remindAt) "" true false) := by
    unfold reminderStep
    simp
  rw [hstep, reminders_fold_false_orgString rs, emit_timestamp_orgString]
  simp [spaceJoin, reminderChunk, String.append_assoc, List.map_map,
    Function.comp_def]

theorem emit_task_properties_level (task : WTask) (w : OrgWriter) :
    (emit_task_properties task w).level = w.level := by
  unfold emit_task_properties
  cases task.assignee <;>
    by_cases h5 : task.reminders = [] <;>
      by_cases h4 : task.completedAt = "" <;>
        cases task.completedBy <;>
          by_cases h2 : task.createdAt = "" <;>
            simp [h5, h4, h2, emit_property_level, emit_timestamp_level,
              emit_level, reminders_fold_level]

theorem emit_task_properties_orgString (task : WTask) (w : OrgWriter) :
    (emit_task_properties task w).orgString = w.orgString ++ propsChunk task := by
  unfold emit_task_properties propsChunk
  have hrem : ∀ w1 : OrgWriter, task.reminders ≠ [] →
      ((task.reminders.foldl reminderStep (true, w1)).2).orgString
        = w1.orgString ++ spaceJoin (task.reminders.map reminderChunk) := by
    intro w1 h
    match task.reminders, h with
    | r :: rs, _ => exact reminders_fold_true_orgString r rs w1
  cases task.assignee <;>
    by_cases h5 : task.reminders = [] <;>
      by_cases h4 : task.completedAt = "" <;>
        cases task.completedBy <;>
          by_cases h2 : task.createdAt = "" <;>
            simp [h5, h4, h2, emit_property_orgString, emit_timestamp_orgString,
              emit_orgString, hrem, String.append_assoc, String.append_empty]

theorem set_level_nonneg (w : OrgWriter) (l : Int) (h : 0 ≤ l) :
    w.set_level l = Except.ok { w with level := l } := by
  unfold OrgWriter.set_level
  rw [if_neg (by omega)]

theorem set_level_neg (w : OrgWriter) (l : Int) (h : l < 0) :
    w.set_level l = Except.error "Heading levels have to be positive." := by
  unfold OrgWriter.set_level
  rw [if_pos h]

theorem drawer_pure (w : OrgWriter) (name : String)
    (f : OrgWriter → OrgWriter) :
    w.drawer name (fun x => (f x, none))
      = ((f (w.emit (":" ++ pyUpper name ++ ":") true)).emit ":END:" true,
          none) := rfl

theorem new_level_pure (w : OrgWriter) (f : OrgWriter → OrgWriter)
    (h : 0 ≤ w.level) :
    w.new_level none (fun x => (f x, none))
      = ({ f { w with level := w.level + 1 } with level := w.level }, none) := by
  unfold OrgWriter.new_level
  dsimp only []
  rw [set_level_nonneg w (w.level + 1) (by omega)]
  dsimp only []
  rw [set_level_nonneg _ w.level h]

theorem emit_sub_section_pure (w : OrgWriter) (f : OrgWriter → OrgWriter)
    (h : 0 ≤ w.level) :
    emit_sub_section w f
      = (({ f { w with level := w.level + 1 } with
            level := w.level }).emit "" true, none) := by
  unfold emit_sub_section
  rw [new_level_pure w f h]

theorem drawer_emits (w : OrgWriter) (name : String)
    (body : OrgWriter → WriterResult)
    (hb : ∀ x, Emits x (body x).1) :
    Emits w (w.drawer name body).1 := by
  unfold OrgWriter.drawer
  dsimp only []
  have h1 : Emits w (w.emit (":" ++ pyUpper name ++ ":") true) :=
    emits_emit w _ true
  have h2 := hb (w.emit (":" ++ pyUpper name ++ ":") true)
  cases hb2 : body (w.emit (":" ++ pyUpper name ++ ":") true) with
  | mk w2 err =>
    rw [hb2] at h2
    dsimp only [] at h2
    cases err with
    | none => exact emits_trans h1 (emits_trans h2 (emits_emit w2 ":END:" true))
    | some e => exact emits_trans h1 h2

theorem new_level_emits (w : OrgWriter) (lvl : Option Int)
    (body : OrgWriter → WriterResult)
    (hb : ∀ x, Emits x (body x).1) :
    Emits w (w.new_level lvl body).1 := by
  unfold OrgWriter.new_level
  dsimp only []
  cases hset : OrgWriter.set_level w
      (match lvl with
        | none => w.level + 1
        | some l => if l = 0 then w.level + 1 else l) with
  | error e => exact emits_refl w
  | ok w1 =>
    dsimp only []
    have hw1 : w1.orgString = w.orgString := by
      unfold OrgWriter.set_level at hset
      split at hset
      · exact absurd hset (by simp)
      · injection hset with h1
        rw [h1.symm]
    have h1 : Emits w w1 := ⟨"", by rw [hw1, String.append_empty]⟩
    have h2 := hb w1
    cases hb2 : body w1 with
    | mk w2 err =>
      rw [hb2] at h2
      dsimp only [] at h2
      cases err with
      | some e => exact emits_trans h1 h2
      | none =>
        dsimp only []
        cases hset2 : OrgWriter.set_level w2 w.level with
        | error e => exact emits_trans h1 h2
        | ok w3 =>
          dsimp only []
          have hw3 : w3.orgString = w2.orgString := by
            unfold OrgWriter.set_level at hset2
            split at hset2
            · exact absurd hset2 (by simp)
            · injection hset2 with h3
              rw [h3.symm]
          exact emits_trans h1 (emits_trans h2 ⟨"", by
            rw [hw3, String.append_empty]⟩)

theorem emit_sub_section_emits (w : OrgWriter) (f : OrgWriter → OrgWriter)
    (hf : ∀ x, Emits x (f x)) :
    Emits w (emit_sub_section w f).1 := by
  unfold emit_sub_section
  have h1 : Emits w (w.new_level none (fun x => (f x, none))).1 :=
    new_level_emits w none _ (fun x => hf x)
  cases hnl : w.new_level none (fun x => (f x, none)) with
  | mk w2 err =>
    rw [hnl] at h1
    cases err with
    | some e => exact h1
    | none => exact emits_trans h1 (emits_emit w2 "" true)

theorem notes_fold_level (notes : List Note) (w : OrgWriter) :
    (List.foldl (fun w note => OrgWriter.emit_content w note.content) w
      notes).level = w.level :=
  foldl_level _ (fun w a => emit_content_level w a.content) notes w

theorem comments_fold_level (l : List WComment) (w : OrgWriter) :
    (List.foldl convert_wunderlist_comment w l).level = w.level :=
  foldl_level _ (fun w _ => emit_list_item_level w _) l w

theorem files_fold_level (l : List WFile) (w : OrgWriter) :
    (List.foldl convert_wunderlist_file w l).level = w.level :=
  foldl_level _ (fun w _ => emit_list_item_level w _) l w

theorem notes_fold_emits (notes : List Note) (w : OrgWriter) :
    Emits w (List.foldl (fun w note => OrgWriter.emit_content w note.content)
      w notes) :=
  emits_foldl _ (fun w _ => emits_trans (emits_emit w _ true)
    (emits_emit _ "" true)) notes w

theorem comments_fold_emits (l : List WComment) (w : OrgWriter) :
    Emits w (List.foldl convert_wunderlist_comment w l) :=
  emits_foldl _ (fun w _ => emits_emit w _ true) l w

theorem files_fold_emits (l : List WFile) (w : OrgWriter) :
    Emits w (List.foldl convert_wunderlist_file w l) :=
  emits_foldl _ (fun w _ => emits_emit w _ true) l w

theorem convert_task_tail_ok (task : WTask) (w : OrgWriter)
    (h : 0 ≤ w.level) :
    (convert_task_tail task w).2 = none
      ∧ ((convert_task_tail task w).1).level = w.level := by
  unfold convert_task_tail
  by_cases hc : task.comments = [] <;> by_cases hf : task.files = [] <;>
    simp [hc, hf, emit_sub_section_pure, notes_fold_level,
      comments_fold_level, files_fold_level, emit_level,
      emit_node_title_level, h]

theorem convert_task_tail_emits (task : WTask) (w : OrgWriter) :
    Emits w (convert_task_tail task w).1 := by
  unfold convert_task_tail
  dsimp only []
  have h1 : Emits w (List.foldl
      (fun w note => OrgWriter.emit_content w note.content) w task.notes) :=
    notes_fold_emits task.notes w
  by_cases hc : task.comments = []
  case pos =>
    rw [if_neg (not_not_intro hc)]
    dsimp only []
    by_cases hf : task.files = []
    · rw [if_neg (not_not_intro hf)]
      exact h1
    · rw [if_pos hf]
      exact emits_trans h1 (emit_sub_section_emits _ _
        (fun x => emits_trans (emits_emit x _ true)
          (files_fold_emits task.files _)))
  case neg =>
    rw [if_pos hc]
    cases hres : emit_sub_section
        (List.foldl (fun w note => OrgWriter.emit_content w note.content) w
          task.notes)
        (fun w =>
          task.comments.foldl convert_wunderlist_comment
            (w.emit_node_title "Comments" "" [])) with
    | mk w3 e3 =>
      have hsec := emit_sub_section_emits
        (List.foldl (fun w note => OrgWriter.emit_content w note.content) w
          task.notes)
        (fun w =>
          task.comments.foldl convert_wunderlist_comment
            (w.emit_node_title "Comments" "" []))
        (fun x => emits_trans (emits_emit x _ true)
          (comments_fold_emits task.comments _))
      rw [hres] at hsec
      dsimp only [] at hsec
      have hw3 : Emits w w3 := emits_trans h1 hsec
      cases e3 with
      | some e => exact hw3
      | none =>
        dsimp only []
        by_cases hf : task.files = []
        · rw [if_neg (not_not_intro hf)]
          exact hw3
        · rw [if_pos hf]
          exact emits_trans hw3 (emit_sub_section_emits w3 _
            (fun x => emits_trans (emits_emit x _ true)
              (files_fold_emits task.files _)))

theorem new_level_ok (w : OrgWriter) (body : OrgWriter → WriterResult)
    (h : 0 ≤ w.level)
    (hb : (body { w with level := w.level + 1 }).2 = none) :
    w.new_level none body
      = ({ (body { w with level := w.level + 1 }).1 with level := w.level },
          none) := by
  unfold OrgWriter.new_level
  dsimp only []
  rw [set_level_nonneg w (w.level + 1) (by omega)]
  dsimp only []
  cases hb2 : body { w with level := w.level + 1 } with
  | mk w2 e2 =>
    rw [hb2] at hb
    dsimp only [] at hb
    cases e2 with
    | some e => exact absurd hb (by simp)
    | none =>
      dsimp only []
      rw [set_level_nonneg w2 w.level h]

theorem convert_task_body_eq (task : WTask) (w : OrgWriter) :
    convert_task_body task w
      = convert_task_tail task
          ((emit_task_properties task
            (w.emit (":" ++ pyUpper "properties" ++ ":") true)).emit
              ":END:" true) := by
  unfold convert_task_body
  rw [drawer_pure]

theorem convert_task_body_ok (task : WTask) (w : OrgWriter)
    (h : 0 ≤ w.level) :
    (convert_task_body task w).2 = none
      ∧ ((convert_task_body task w).1).level = w.level := by
  rw [convert_task_body_eq]
  have hl : ((emit_task_properties task
      (w.emit (":" ++ pyUpper "properties" ++ ":") true)).emit
        ":END:" true).level = w.level := by
    rw [emit_level, emit_task_properties_level, emit_level]
  have := convert_task_tail_ok task
    ((emit_task_properties task
      (w.emit (":" ++ pyUpper "properties" ++ ":") true)).emit ":END:" true)
    (by rw [hl]; exact h)
  rw [hl] at this
  exact this

theorem convert_task_body_emits (task : WTask) (w : OrgWriter) :
    Emits w (convert_task_body task w).1 := by
  rw [convert_task_body_eq]
  refine emits_trans (emits_emit w (":" ++ pyUpper "properties" ++ ":") true)
    (emits_trans ⟨propsChunk task, emit_task_properties_orgString task _⟩
      (emits_trans (emits_emit _ ":END:" true)
        (convert_task_tail_emits task _)))

theorem convert_task_body_props (task : WTask) (w : OrgWriter) :
    ∃ post, (convert_task_body task w).1.orgString
      = w.orgString ++ ((":" ++ pyUpper "properties" ++ ":") ++ "\n")
          ++ propsChunk task ++ (":END:" ++ "\n") ++ post := by
  rw [convert_task_body_eq]
  obtain ⟨s, hs⟩ := convert_task_tail_emits task
    ((emit_task_properties task
      (w.emit (":" ++ pyUpper "properties" ++ ":") true)).emit ":END:" true)
  refine ⟨s, ?_⟩
  rw [hs, emit_orgString, emit_task_properties_orgString, emit_orgString]
  simp [String.append_assoc]

theorem convert_task_ok (task : WTask) (w : OrgWriter) (h : 0 ≤ w.level) :
    (convert_wunderlist_task w task).2 = none
      ∧ ((convert_wunderlist_task w task).1).level = w.level := by
  unfold convert_wunderlist_task
  dsimp only []
  have := convert_task_body_ok task
    (w.emit_node (convert_wunderlist_title task.title).1 ""
      (convert_wunderlist_title task.title).2
      (parse_wunderlist_date task.dueDate) "deadline"
      (if task.starred then "next"
       else if task.completed then "done" else "todo"))
    (by rw [emit_node_level]; exact h)
  rw [emit_node_level] at this
  exact this

theorem convert_tasks_ok :
    ∀ (ts : List WTask) (w : OrgWriter), 0 ≤ w.level →
      (convert_tasks w ts).2 = none
        ∧ ((convert_tasks w ts).1).level = w.level
  | [], w, _ => ⟨rfl, rfl⟩
  | t :: ts, w, h => by
    unfold convert_tasks
    obtain ⟨h1, h2⟩ := convert_task_ok t w h
    cases hres : convert_wunderlist_task w t with
    | mk w1 e1 =>
      rw [hres] at h1 h2
      dsimp only [] at h1 h2
      cases e1 with
      | some e => exact absurd h1 (by simp)
      | none =>
        dsimp only []
        have := convert_tasks_ok ts w1 (by rw [h2]; exact h)
        rw [h2] at this
        exact this

theorem convert_list_ok (todo_list : TodoList) (w : OrgWriter)
    (h : 0 ≤ w.level) :
    (convert_wunderlist_list w todo_list).2 = none
      ∧ ((convert_wunderlist_list w todo_list).1).level = w.level := by
  unfold convert_wunderlist_list
  dsimp only []
  rw [new_level_ok _ _ (by rw [emit_node_title_level]; exact h)
    (convert_tasks_ok todo_list.tasks _ (by
      rw [emit_node_title_level]
      dsimp only []
      omega)).1]
  exact ⟨rfl, by dsimp only []; rw [emit_node_title_level]⟩

theorem convert_lists_ok :
    ∀ (ls : List TodoList) (w : OrgWriter), 0 ≤ w.level →
      (convert_lists w ls).2 = none
        ∧ ((convert_lists w ls).1).level = w.level
  | [], w, _ => ⟨rfl, rfl⟩
  | l :: ls, w, h => by
    unfold convert_lists
    obtain ⟨h1, h2⟩ := convert_list_ok l w h
    cases hres : convert_wunderlist_list w l with
    | mk w1 e1 =>
      rw [hres] at h1 h2
      dsimp only [] at h1 h2
      cases e1 with
      | some e => exact absurd h1 (by simp)
      | none =>
        dsimp only []
        have := convert_lists_ok ls w1 (by rw [h2]; exact h)
        rw [h2] at this
        exact this

theorem takeWhile_length_le (p : Char → Bool) (l : List Char) :
    (l.takeWhile p).length ≤ l.length := by
  induction l with
  | nil => simp
  | cons c cs ih =>
    by_cases h : p c
    · simp only [List.takeWhile_cons, h, if_true, List.length_cons]
      omega
    · simp [List.takeWhile_cons, h]

theorem tagGroup_length_le (rest : List Char) :
    (tagGroup rest).length ≤ rest.length := by
  unfold tagGroup
  dsimp only []
  rw [List.length_append]
  have h1 := takeWhile_length_le (fun c => !(isPySpace c)) rest
  have h2 := takeWhile_length_le isPySpace
    (rest.drop (rest.takeWhile (fun c => !(isPySpace c))).length)
  rw [List.length_drop] at h2
  omega

theorem scanAux_length :
    ∀ (fuel : Nat) (l : List Char), l.length ≤ fuel →
      (scanTagTitleAux fuel l).1.length + (scanTagTitleAux fuel l).2.length
        = l.length
  | _, [], _ => by simp [scanTagTitleAux]
  | 0, _ :: _, h => by simp at h
  | fuel + 1, c :: rest, h => by
    have hrest : rest.length ≤ fuel := by
      simp only [List.length_cons] at h
      omega
    by_cases hc : c = '#'
    · have hg := tagGroup_length_le rest
      have hdrop : (rest.drop (tagGroup rest).length).length ≤ fuel := by
        rw [List.length_drop]
        omega
      have ih := scanAux_length fuel (rest.drop (tagGroup rest).length) hdrop
      rw [List.length_drop] at ih
      rw [show scanTagTitleAux (fuel + 1) (c :: rest)
          = (tagGroup rest
              ++ (scanTagTitleAux fuel (rest.drop (tagGroup rest).length)).1,
             tagGroup rest
              :: (scanTagTitleAux fuel (rest.drop (tagGroup rest).length)).2)
        from by simp [scanTagTitleAux, hc]]
      simp only [List.length_append, List.length_cons]
      omega
    · have ih := scanAux_length fuel rest hrest
      rw [show scanTagTitleAux (fuel + 1) (c :: rest)
          = (c :: (scanTagTitleAux fuel rest).1, (scanTagTitleAux fuel rest).2)
        from by simp [scanTagTitleAux, hc]]
      simp only [List.length_cons]
      omega

theorem scanAux_no_hash :
    ∀ (fuel : Nat) (l : List Char), l.length ≤ fuel → '#' ∉ l →
      scanTagTitleAux fuel l = (l, [])
  | _, [], _, _ => by simp [scanTagTitleAux]
  | 0, _ :: _, h, _ => by simp at h
  | fuel + 1, c :: rest, h, hn => by
    have hc : c ≠ '#' := fun he => hn (he ▸ List.mem_cons_self c rest)
    have hrest : rest.length ≤ fuel := by
      simp only [List.length_cons] at h
      omega
    have hnr : '#' ∉ rest := fun hm => hn (List.mem_cons_of_mem c hm)
    simp [scanTagTitleAux, hc, scanAux_no_hash fuel rest hrest hnr]

theorem convert_title_length (s : String) :
    (convert_wunderlist_title s).1.length
      + ((convert_wunderlist_title s).2).length = s.length := by
  unfold convert_wunderlist_title scanTagTitle
  dsimp only []
  have h := scanAux_length s.data.length s.data le_rfl
  rw [List.length_map]
  exact h

theorem convert_title_no_hash (s : String) (h : '#' ∉ s.data) :
    convert_wunderlist_title s = (s, []) := by
  cases s with
  | mk d =>
    unfold convert_wunderlist_title scanTagTitle
    rw [scanAux_no_hash d.length d le_rfl h]
    rfl

theorem headingLine_todo (lv : Int) (title : String) (tags : List String)
    (st : String) (hst : st ≠ "") :
    headingLine lv title st tags
      = String.mk (List.replicate (lv + 1).toNat '*') ++ " " ++ pyUpper st
          ++ ((" " ++ title)
            ++ (if tags ≠ [] then
                  " :" ++ String.intercalate ":" (tags.map pyUpper) ++ ":"
                else "")) := by
  unfold headingLine
  rw [if_pos hst]
  simp [String.append_assoc]

theorem propsChunk_split (task : WTask) (h : task.reminders ≠ []) :
    ∃ a b, propsChunk task
      = a ++ (":REMINDERS: "
          ++ (spaceJoin (task.reminders.map reminderChunk) ++ ("\n" ++ b))) := by
  refine ⟨propertyChunk "created-by" (convert_wunderlist_person task.createdBy)
    ++ (if task.createdAt ≠ "" then
          propertyChunk "created" ""
            ++ tsChunk (parse_wunderlist_date task.createdAt) "" false true
        else "")
    ++ (match task.completedBy with
        | some p => propertyChunk "COMPLETED-BY" (convert_wunderlist_person p)
        | none => "")
    ++ (if task.completedAt ≠ "" then
          propertyChunk "completed" ""
            ++ tsChunk (parse_wunderlist_date task.completedAt) "" false true
        else ""),
    (match task.assignee with
      | some p => propertyChunk "assignee" (convert_wunderlist_person p)
      | none => ""), ?_⟩
  unfold propsChunk
  rw [if_pos h]
  rw [show propertyChunk "reminders" "" = ":REMINDERS: " from by decide]
  simp [String.append_assoc]

/-! ## The claims. -/

/-- C1 counterexample: on the title `"Buy #groceries milk"` the code does
not return the tag `"#groceries"` with cleaned title `"Buy milk"`: the
capture group excludes the `#` and the substitution re-inserts the group,
so only the `#` is removed. -/
theorem c1_counterexample :
    convert_wunderlist_title "Buy #groceries milk"
      ≠ ("Buy milk", ["#groceries"]) := by decide

/-- C1 (amended): for `"Buy #groceries milk"` extraction yields the tag
`"groceries"` (the matched span after `#`, stripped of its final captured
character) and the cleaned title `"Buy groceries milk"`: the substitution
replaces each match by its capture group, so exactly one character (the
`#`) is removed from the title per tag, which the general length law
expresses. -/
theorem c1_tag_extraction (s : String) :
    convert_wunderlist_title "Buy #groceries milk"
      = ("Buy groceries milk", ["groceries"])
    ∧ (convert_wunderlist_title s).1.length
        + ((convert_wunderlist_title s).2).length = s.length :=
  ⟨by decide, convert_title_length s⟩

/-- C2: the claim is right and the code is wrong: `sanitize_text`
computes `star_re.sub("+", text)` but discards the result, so content
starting with `"*** not a heading"` is emitted unchanged (followed by a
blank line); the discarded substitution would have produced
`"+ not a heading"`. -/
theorem c2_sanitize_discarded :
    sanitize_text "*** not a heading" = "*** not a heading"
    ∧ ((OrgWriter.mk 0 "").emit_content "*** not a heading").orgString
        = "*** not a heading\n\n"
    ∧ leadingStarSub "*** not a heading" = "+ not a heading" := by decide

/-- C4 counterexample: a body that raises inside
`new_level` leaves the depth at the inner value (1, not the prior 0),
because the generator has no `try/finally`. -/
theorem c4_counterexample :
    ((OrgWriter.mk 0 "").new_level none (fun x => (x, some "boom"))).2
        = some "boom"
    ∧ ((OrgWriter.mk 0 "").new_level none
        (fun x => (x, some "boom"))).1.level ≠ 0 := by decide

/-- C4 (amended): the depth is restored to its prior value on normal
completion of the body (for a writer at nonnegative depth); on a thrown
error the restoration is skipped and the depth keeps the value it had
inside the scope. -/
theorem c4_restore_on_success (w : OrgWriter)
    (body : OrgWriter → WriterResult) (h : 0 ≤ w.level)
    (hb : (body { w with level := w.level + 1 }).2 = none) :
    (w.new_level none body).1.level = w.level
    ∧ (w.new_level none body).2 = none := by
  rw [new_level_ok w body h hb]
  exact ⟨rfl, rfl⟩

theorem c4_witness :
    ((0 : Int) ≤ (OrgWriter.mk 0 "").level
      ∧ ((fun (x : OrgWriter) => (x, (none : Option String)))
          { OrgWriter.mk 0 "" with
            level := (OrgWriter.mk 0 "").level + 1 }).2 = none)
    ∧ ((OrgWriter.mk 0 "").new_level none
        (fun x => (x, none))).1.level = (OrgWriter.mk 0 "").level
    ∧ ((OrgWriter.mk 0 "").new_level none (fun x => (x, none))).2 = none :=
  ⟨⟨by decide, rfl⟩,
    c4_restore_on_success (OrgWriter.mk 0 "") (fun x => (x, none))
      (by decide) rfl⟩

/-- C5 counterexample: a body that raises inside the `drawer` block
leaves the buffer with the opening `:PROPERTIES:` marker and no
`:END:` line, because the generator has no `try/finally`. -/
theorem c5_counterexample :
    ((OrgWriter.mk 0 "").drawer "properties" (fun x => (x, some "boom"))).2
        = some "boom"
    ∧ ((OrgWriter.mk 0 "").drawer "properties"
        (fun x => (x, some "boom"))).1.orgString = ":PROPERTIES:\n"
    ∧ ¬ (":END:".data <:+: ((OrgWriter.mk 0 "").drawer "properties"
          (fun x => (x, some "boom"))).1.orgString.data) := by decide

/-- C5 (amended): the closing `":END:"` line is emitted when the
caller-supplied body completes normally; when the body raises, the
buffer is left exactly as the body left it, without the closing
marker. -/
theorem c5_end_on_success (w : OrgWriter) (name : String)
    (body : OrgWriter → WriterResult)
    (hb : (body (w.emit (":" ++ pyUpper name ++ ":") true)).2 = none) :
    (w.drawer name body).1.orgString
      = ((body (w.emit (":" ++ pyUpper name ++ ":") true)).1).orgString
          ++ ":END:\n"
    ∧ (w.drawer name body).2 = none := by
  unfold OrgWriter.drawer
  dsimp only []
  cases hb2 : body (w.emit (":" ++ pyUpper name ++ ":") true) with
  | mk w2 e2 =>
    rw [hb2] at hb
    dsimp only [] at hb
    cases e2 with
    | some e => exact absurd hb (by simp)
    | none =>
      dsimp only []
      refine ⟨?_, rfl⟩
      rw [emit_orgString]
      exact congrArg (fun z => w2.orgString ++ z) (by decide)

theorem c5_witness :
    (((fun (x : OrgWriter) => (x, (none : Option String)))
        ((OrgWriter.mk 0 "").emit
          (":" ++ pyUpper "properties" ++ ":") true)).2 = none)
    ∧ ((OrgWriter.mk 0 "").drawer "properties"
        (fun x => (x, none))).1.orgString = ":PROPERTIES:\n:END:\n"
    ∧ ((OrgWriter.mk 0 "").drawer "properties" (fun x => (x, none))).2
        = none := by
  have h := c5_end_on_success (OrgWriter.mk 0 "") "properties"
    (fun x => (x, none)) rfl
  exact ⟨rfl, by rw [h.1]; decide, h.2⟩

/-- C6: date parsing tries the fractional-second UTC, whole-second UTC
and bare local layouts in that order and returns the first success; an
absent (falsy) string or one matching none of the layouts (such as
`"not-a-date"`) yields `none` without raising, and a timestamp emission
keyed on an absent date returns the writer unchanged. -/
theorem c6_date_parsing_order :
    parse_wunderlist_date "" = none
    ∧ parse_wunderlist_date "not-a-date" = none
    ∧ (∀ s d, strptimeFracUTC s = some d → parse_wunderlist_date s = some d)
    ∧ (∀ s d, strptimeFracUTC s = none → strptimeWholeUTC s = some d →
        parse_wunderlist_date s = some d)
    ∧ (∀ s d, strptimeFracUTC s = none → strptimeWholeUTC s = none →
        strptimeBare s = some d → parse_wunderlist_date s = some d)
    ∧ (∀ s, strptimeFracUTC s = none → strptimeWholeUTC s = none →
        strptimeBare s = none → parse_wunderlist_date s = none)
    ∧ (∀ (w : OrgWriter) (tt : String) (a nl : Bool),
        w.emit_timestamp none tt a nl = w) := by
  refine ⟨rfl, by decide, ?_, ?_, ?_, ?_, fun w tt a nl => rfl⟩
  · intro s d h
    by_cases hs : s = ""
    · rw [hs] at h
      rw [show strptimeFracUTC "" = none from rfl] at h
      cases h
    · unfold parse_wunderlist_date
      rw [if_neg hs, h]
  · intro s d h1 h2
    by_cases hs : s = ""
    · rw [hs] at h2
      rw [show strptimeWholeUTC "" = none from rfl] at h2
      cases h2
    · unfold parse_wunderlist_date
      rw [if_neg hs, h1, h2]
  · intro s d h1 h2 h3
    by_cases hs : s = ""
    · rw [hs] at h3
      rw [show strptimeBare "" = none from rfl] at h3
      cases h3
    · unfold parse_wunderlist_date
      rw [if_neg hs, h1, h2, h3]
  · intro s h1 h2 h3
    by_cases hs : s = ""
    · rw [hs]
      rfl
    · unfold parse_wunderlist_date
      rw [if_neg hs, h1, h2, h3]

theorem c6_witness :
    (strptimeFracUTC "2020-03-01T10:00:00Z" = none
      ∧ strptimeWholeUTC "2020-03-01T10:00:00Z"
          = some ⟨2020, 3, 1, 10, 0, 0, 0⟩)
    ∧ parse_wunderlist_date "2020-03-01T10:00:00Z"
        = some ⟨2020, 3, 1, 10, 0, 0, 0⟩ :=
  ⟨⟨by decide, by decide⟩,
    c6_date_parsing_order.2.2.2.1 "2020-03-01T10:00:00Z" _
      (by decide) (by decide)⟩

/-- C7: a full conversion (over any list of todo lists) never raises and
returns the writer depth to its starting value, including for lists with
zero tasks and tasks with zero comments and files. -/
theorem c7_depth_balance (w : OrgWriter) (wunder_data : List TodoList)
    (h : 0 ≤ w.level) :
    (convert_lists w wunder_data).2 = none
    ∧ ((convert_lists w wunder_data).1).level = w.level :=
  convert_lists_ok wunder_data w h

theorem c7_witness :
    (0 : Int) ≤ (OrgWriter.mk 0 "").level
    ∧ (convert_lists (OrgWriter.mk 0 "")
        [TodoList.mk "Inbox" none []]).2 = none
    ∧ ((convert_lists (OrgWriter.mk 0 "")
        [TodoList.mk "Inbox" none []]).1).level = (OrgWriter.mk 0 "").level :=
  ⟨by decide,
    c7_depth_balance (OrgWriter.mk 0 "") [TodoList.mk "Inbox" none []]
      (by decide)⟩

/-- C8 counterexample: extraction is not idempotent: the cleaned title of
`"##x y"` is `"#x y"` (the matched span itself contained a `#`), and a
second extraction finds the tag `"x"` and changes the title again. -/
theorem c8_counterexample :
    convert_wunderlist_title "##x y" = ("#x y", ["#x"])
    ∧ convert_wunderlist_title "#x y" = ("x y", ["x"])
    ∧ convert_wunderlist_title ((convert_wunderlist_title "##x y").1)
        ≠ (((convert_wunderlist_title "##x y").1), []) := by decide

/-- C8 (amended): extraction is idempotent on cleaned titles that contain
no `#` character: re-running it then yields zero tags and the title
unchanged.  (A cleaned title can retain `#` characters when a matched
span itself contains one, and extraction is not idempotent there.) -/
theorem c8_idempotent_when_clean (s : String)
    (h : '#' ∉ ((convert_wunderlist_title s).1).data) :
    convert_wunderlist_title ((convert_wunderlist_title s).1)
      = (((convert_wunderlist_title s).1), []) :=
  convert_title_no_hash _ h

theorem c8_witness :
    '#' ∉ ((convert_wunderlist_title "Buy #groceries milk").1).data
    ∧ convert_wunderlist_title
        ((convert_wunderlist_title "Buy #groceries milk").1)
      = (((convert_wunderlist_title "Buy #groceries milk").1), []) :=
  ⟨by decide, c8_idempotent_when_clean "Buy #groceries milk" (by decide)⟩

/-- C10: in `new_level`, an explicit target of 0 is falsy and selects the
default `current + 1` (so the scope runs at depth `d + 1`, not 0); a
positive explicit target sets the depth inside the scope to exactly that
target; a negative target raises the invalid-depth `RuntimeError` before
the body runs.  (The in-scope depth is observed through a body that
raises, which returns the writer it was handed.) -/
theorem c10_new_level_zero_target (w : OrgWriter) (t : Int)
    (body : OrgWriter → WriterResult) (h : 0 ≤ w.level) :
    (w.new_level (some 0) body = w.new_level none body)
    ∧ ((w.new_level (some 0) (fun x => (x, some "stop"))).1.level
        = w.level + 1)
    ∧ (0 < t → (w.new_level (some t) (fun x => (x, some "stop"))).1.level = t)
    ∧ (t < 0 → w.new_level (some t) body
        = (w, some "Heading levels have to be positive.")) := by
  refine ⟨?_, ?_, ?_, ?_⟩
  · unfold OrgWriter.new_level
    norm_num
  · unfold OrgWriter.new_level
    dsimp only []
    norm_num
    rw [set_level_nonneg w (w.level + 1) (by omega)]
  · intro ht
    unfold OrgWriter.new_level
    dsimp only []
    rw [if_neg (by omega), set_level_nonneg w t (by omega)]
  · intro ht
    unfold OrgWriter.new_level
    dsimp only []
    rw [if_neg (by omega), set_level_neg w t ht]

theorem c10_witness :
    (0 : Int) ≤ (OrgWriter.mk 2 "").level
    ∧ ((OrgWriter.mk 2 "").new_level (some 0)
        (fun x => (x, some "stop"))).1.level = 3 := by
  have h := c10_new_level_zero_target (OrgWriter.mk 2 "") 3
    (fun x => (x, none)) (by decide)
  refine ⟨by decide, ?_⟩
  rw [h.2.1]
  decide

/-- C9: the heading emitted for a task starts with depth-many heading
markers, a space, then the upper-cased todo keyword computed as `next`
if starred, else `done` if completed, else `todo` — so a task that is
both starred and completed gets `NEXT`, never `DONE`. -/
theorem c9_todo_state (w : OrgWriter) (task : WTask) :
    ∃ rest, (convert_wunderlist_task w task).1.orgString
      = w.orgString
        ++ String.mk (List.replicate (w.level + 1).toNat '*')
        ++ " "
        ++ (if task.starred then "NEXT"
            else if task.completed then "DONE" else "TODO")
        ++ (" " ++ rest) := by
  unfold convert_wunderlist_task
  dsimp only []
  obtain ⟨s, hs⟩ := convert_task_body_emits task
    (w.emit_node (convert_wunderlist_title task.title).1 ""
      (convert_wunderlist_title task.title).2
      (parse_wunderlist_date task.dueDate) "deadline"
      (if task.starred then "next"
       else if task.completed then "done" else "todo"))
  rw [hs, emit_node_orgString,
    headingLine_todo _ _ _ _
      (by cases task.starred <;> cases task.completed <;> decide),
    show pyUpper (if task.starred then "next"
        else if task.completed then "done" else "todo")
      = (if task.starred then "NEXT"
        else if task.completed then "DONE" else "TODO") from by
      cases task.starred <;> cases task.completed <;> decide,
    show (if ("" : String) ≠ "" then ("" : String) ++ "\n" else "") = ""
      from by decide]
  refine ⟨(convert_wunderlist_title task.title).1
    ++ ((if (convert_wunderlist_title task.title).2 ≠ [] then
          " :" ++ String.intercalate ":"
            ((convert_wunderlist_title task.title).2.map pyUpper) ++ ":"
        else "")
      ++ ("\n"
        ++ (tsChunk (parse_wunderlist_date task.dueDate) "deadline" true true
          ++ s))), ?_⟩
  simp [String.append_assoc, String.append_empty]

set_option maxRecDepth 4000

/-- C3 counterexample: for a task with the single reminder
`"2020-03-01T10:00:00Z"`, the reminders property line carries an
active-style (angle-bracketed) timestamp — the loop calls
`emit_timestamp` without `active=False` — so no inactive-style
(square-bracketed) reminder appears anywhere in the output. -/
theorem c3_counterexample :
    (convert_wunderlist_task (OrgWriter.mk 0 "")
        sampleReminderTask).1.orgString
      = "* TODO Call mom\n:PROPERTIES:\n:CREATED-BY: [[mailto:ann@x.io][Ann]]\n:REMINDERS: <2020-03-01 Sun 10:00>\n:END:\n"
    ∧ ¬ ("[2020-03-01 Sun 10:00]".data <:+:
        (convert_wunderlist_task (OrgWriter.mk 0 "")
          sampleReminderTask).1.orgString.data) := by decide

/-- C3 (amended): for every task with at least one reminder, the output
contains a reminders property line of space-joined reminder timestamps in
source order, rendered in the active (angle-bracketed) style —
`reminderChunk` is an angle-bracketed stamp, empty for a reminder whose
date fails to parse. -/
theorem c3_reminders_line (w : OrgWriter) (task : WTask)
    (h : task.reminders ≠ []) :
    ∃ pre post, (convert_wunderlist_task w task).1.orgString
      = pre ++ (":REMINDERS: "
          ++ (spaceJoin (task.reminders.map reminderChunk)
            ++ ("\n" ++ post))) := by
  unfold convert_wunderlist_task
  dsimp only []
  obtain ⟨post1, hpost⟩ := convert_task_body_props task
    (w.emit_node (convert_wunderlist_title task.title).1 ""
      (convert_wunderlist_title task.title).2
      (parse_wunderlist_date task.dueDate) "deadline"
      (if task.starred then "next"
       else if task.completed then "done" else "todo"))
  obtain ⟨a, b, hsplit⟩ := propsChunk_split task h
  rw [hpost, hsplit]
  refine ⟨(w.emit_node (convert_wunderlist_title task.title).1 ""
      (convert_wunderlist_title task.title).2
      (parse_wunderlist_date task.dueDate) "deadline"
      (if task.starred then "next"
       else if task.completed then "done" else "todo")).orgString
    ++ (((":" ++ pyUpper "properties" ++ ":") ++ "\n") ++ a),
    b ++ ((":END:" ++ "\n") ++ post1), ?_⟩
  simp [String.append_assoc]

theorem c3_witness :
    sampleReminderTask.reminders ≠ []
    ∧ ∃ pre post,
        (convert_wunderlist_task (OrgWriter.mk 0 "")
          sampleReminderTask).1.orgString
          = pre ++ (":REMINDERS: "
              ++ (spaceJoin (sampleReminderTask.reminders.map reminderChunk)
                ++ ("\n" ++ post))) :=
  ⟨by decide,
    c3_reminders_line (OrgWriter.mk 0 "") sampleReminderTask (by decide)⟩

/-- Sanity checks of the embedded `strptime`, `strftime` and tag-regex
models on concrete inputs, matching the observable behaviour of the
CPython functions the source calls. -/
theorem model_sanity_checks :
    convert_wunderlist_title "Buy #milk" = ("Buy milk", ["mil"])
    ∧ convert_wunderlist_title "a #b#c d" = ("a b#c d", ["b#c"])
    ∧ convert_wunderlist_title "abc#" = ("abc", [""])
    ∧ convert_wunderlist_title "Buy #groceries  milk"
        = ("Buy groceries  milk", ["groceries "])
    ∧ parse_wunderlist_date "2020-03-01T10:00:00.000Z"
        = some ⟨2020, 3, 1, 10, 0, 0, 0⟩
    ∧ parse_wunderlist_date "2020-1-2T3:4:5" = some ⟨2020, 1, 2, 3, 4, 5, 0⟩
    ∧ parse_wunderlist_date "2020-03-01T10:00:60" = none
    ∧ parse_wunderlist_date "0000-01-01T00:00:00" = none
    ∧ parse_wunderlist_date "2020-03-01t10:00:00z"
        = some ⟨2020, 3, 1, 10, 0, 0, 0⟩
    ∧ parse_wunderlist_date "2020-03-01T10:00:00.1234567Z" = none
    ∧ parse_wunderlist_date "2020-03-01T10:00:00.123Z"
        = some ⟨2020, 3, 1, 10, 0, 0, 123000⟩
    ∧ parse_wunderlist_date "2020-02-30T10:00:00" = none
    ∧ parse_wunderlist_date "2020-13-01T10:00:00" = none
    ∧ format_org_date ⟨2020, 3, 1, 10, 0, 0, 0⟩ = "2020-03-01 Sun 10:00" := by
  decide
